import Mathlib

/-!
Shallow embedding of the lung-cancer dashboard's core pipeline
(streamlit_app.py): categorical normalization, the gender/age filter with
age sort and column projection, the per-column frequency counts feeding the
charts, and the prediction adapter that encodes a patient profile and maps
the classifier's output class to a label string.

Cells of the tabular data are modelled by `Val`: a numeric cell, a string
cell, or the missing marker (pandas NaN).  A row is an association list
from column names to cells, a dataset is a list of rows.  External
artifacts (the persisted label encoder, scaler and classifiers) are
parameters: the encoder is a function from labels to integer codes, the
scaler a function from the encoded row to a numeric vector, a classifier a
function from that vector to the predicted class of the single input row.
-/

namespace LungApp

/-- A cell of the tabular data: an integer, a string, or missing (NaN). -/
inductive Val : Type
  | num (n : Int)
  | str (s : String)
  | missing
deriving DecidableEq, Repr

/-- A row: an association list from column names to cell values. -/
abbrev RowT : Type := List (String × Val)

/-- Looking a column up in a row (pandas `row[col]`); absent columns give
the missing marker. -/
def getCell (r : RowT) (c : String) : Val :=
  match r.find? (fun p => p.1 == c) with
  | some p => p.2
  | none => Val.missing

/-- The mapping dictionary for binary columns, line 56 of the source:
`{1: "No", 2: "Yes", "YES": "Yes", "NO": "No", "M": "Male", "F": "Female"}`,
as the lookup function pandas `Series.map` applies per cell: a key absent
from the dictionary yields NaN (here: `Val.missing`). -/
def binary_mapping (v : Val) : Val :=
  if v = Val.num 1 then Val.str "No"
  else if v = Val.num 2 then Val.str "Yes"
  else if v = Val.str "YES" then Val.str "Yes"
  else if v = Val.str "NO" then Val.str "No"
  else if v = Val.str "M" then Val.str "Male"
  else if v = Val.str "F" then Val.str "Female"
  else Val.missing

/-- The normalization loop, lines 61-63 of the source: every column other
than Age is mapped through `binary_mapping`; Age is left untouched. -/
def normalizeRow (r : RowT) : RowT :=
  r.map (fun p => if p.1 == "Age" then p else (p.1, binary_mapping p.2))

/-- Normalizing a whole dataset (the per-column loop applied row-wise). -/
def normalize (df : List RowT) : List RowT :=
  df.map normalizeRow

/-- The filter selection: the gender multiselect, the age-range slider
endpoints, and the feature/symptom multiselects. -/
structure Selection : Type where
  genders : List String
  lo : Int
  hi : Int
  features : List String
  symptoms : List String

/-- Line 99 of the source: `lung_df["Gender"].isin(genders)`.  A missing
gender cell is never a member (pandas `isin` is false on NaN). -/
def genderOk (sel : Selection) (r : RowT) : Bool :=
  match getCell r "Gender" with
  | Val.str g => decide (g ∈ sel.genders)
  | _ => false

/-- Line 100 of the source: `lung_df["Age"].between(ages[0], ages[1])`,
inclusive on both ends (the pandas default); false on a non-numeric cell. -/
def ageOk (sel : Selection) (r : RowT) : Bool :=
  match getCell r "Age" with
  | Val.num a => decide (sel.lo ≤ a ∧ a ≤ sel.hi)
  | _ => false

/-- The conjunction of the two boolean masks of lines 98-101. -/
def keepRow (sel : Selection) (r : RowT) : Bool :=
  genderOk sel r && ageOk sel r

/-- Lines 98-101 of the source: boolean-mask row selection. -/
def filterRows (df : List RowT) (sel : Selection) : List RowT :=
  df.filter (keepRow sel)

/-- Insert one element into a list relative to a boolean comparison,
keeping it before the first element it compares at-or-before. -/
def insertBy {α : Type} (le : α → α → Bool) (x : α) : List α → List α
  | [] => [x]
  | y :: ys => if le x y then x :: y :: ys else y :: insertBy le x ys

/-- Comparison sort used to model the row sort and the count sort.  The
tie order this particular algorithm produces is a modelling choice: the
source sorts with the pandas default kind (quicksort), whose tie order is
implementation-defined, so only tie-order-insensitive properties are
proved about sorted output. -/
def sortBy {α : Type} (le : α → α → Bool) : List α → List α
  | [] => []
  | x :: xs => insertBy le x (sortBy le xs)

/-- The Age cell of a row as an integer (rows reaching the sort always
carry a numeric age, since the filter already required one). -/
def ageVal (r : RowT) : Int :=
  match getCell r "Age" with
  | Val.num a => a
  | _ => 0

/-- Comparison by age, ascending, for line 103's sort. -/
def ageLe (r s : RowT) : Bool :=
  decide (ageVal r ≤ ageVal s)

/-- Line 106 of the source: `["Age", "Gender", "Lung Cancer"] + features + symptoms`. -/
def displayCols (sel : Selection) : List String :=
  ["Age", "Gender", "Lung Cancer"] ++ sel.features ++ sel.symptoms

/-- Column projection of one row onto the selected display columns. -/
def projRow (cols : List String) (r : RowT) : RowT :=
  cols.map (fun c => (c, getCell r c))

/-- Lines 98-107 end to end: select rows, sort by age, project columns. -/
def filteredView (df : List RowT) (sel : Selection) : List RowT :=
  (sortBy ageLe (filterRows df sel)).map (projRow (displayCols sel))

/-- The two data-frame variables the filtering section of the script
manipulates: the source `lung_df` and the derived `lung_df_filtered`. -/
structure Env : Type where
  lung_df : List RowT
  lung_df_filtered : List RowT

/-- Lines 98-101 as a state step: reassigns only `lung_df_filtered`
(pandas boolean-mask indexing returns a new frame). -/
def step_filter (sel : Selection) (e : Env) : Env :=
  { e with lung_df_filtered := filterRows e.lung_df sel }

/-- Line 103 as a state step: `sort_values` with the default
`inplace=False` returns a new frame. -/
def step_sort (e : Env) : Env :=
  { e with lung_df_filtered := sortBy ageLe e.lung_df_filtered }

/-- Lines 106-107 as a state step: column selection returns a new frame. -/
def step_project (sel : Selection) (e : Env) : Env :=
  { e with lung_df_filtered := e.lung_df_filtered.map (projRow (displayCols sel)) }

/-- The values of one column down a view. -/
def colValues (view : List RowT) (c : String) : List Val :=
  view.map (fun r => getCell r c)

/-- Dropping missing values, as `value_counts()` does by default
(`dropna=True`). -/
def dropNA (vs : List Val) : List Val :=
  vs.filter (fun v => decide (v ≠ Val.missing))

/-- Distinct values in order of first appearance. -/
def dedupFS : List Val → List Val
  | [] => []
  | v :: vs => v :: (dedupFS vs).filter (fun u => decide (u ≠ v))

/-- Each distinct value paired with its number of occurrences. -/
def uniqCounts (vs : List Val) : List (Val × Nat) :=
  (dedupFS vs).map (fun v => (v, vs.count v))

/-- Descending comparison on counts for the count sort. -/
def cntLe (a b : Val × Nat) : Bool :=
  decide (b.2 ≤ a.2)

/-- Lines 121 and 140 of the source: `Series.value_counts()` — drop the
missing values, count each distinct remaining value, and order the pairs
by descending count. -/
def countBy (view : List RowT) (c : String) : List (Val × Nat) :=
  sortBy cntLe (uniqCounts (dropNA (colValues view c)))

/-- Line 58 of the source: `columns = ["Gender", "Age"]`.  The encoding
loop of lines 201-203 skips exactly these columns. -/
def columns : List String := ["Gender", "Age"]

/-- Lines 192-197 of the source: the `input_data` dictionary, in insertion
order — an inline 1/0 code for gender, the raw age, the Yes/No feature
answers, and a fixed "No" for the outcome column. -/
def input_data (gender : String) (age : Int)
    (feature_inputs : List (String × String)) : RowT :=
  ("Gender", Val.num (if gender == "Male" then 1 else 0)) ::
  ("Age", Val.num age) ::
  (feature_inputs.map (fun p => (p.1, Val.str p.2)) ++ [("Lung Cancer", Val.str "No")])

/-- `label_encoder.transform` on a single cell: a string label becomes its
integer code; applied only to string cells (the loop below only reaches
string-valued columns). -/
def encTransform (enc : String → Int) : Val → Val
  | Val.str s => Val.num (enc s)
  | v => v

/-- Lines 201-203 of the source: every column not in `columns` is passed
through the persisted label encoder; `Gender` and `Age` are skipped. -/
def encodeColumns (enc : String → Int) (r : RowT) : RowT :=
  r.map (fun p => if columns.contains p.1 then p else (p.1, encTransform enc p.2))

/-- Line 206 of the source: `del input_df["Lung Cancer"]`. -/
def dropOutcome (r : RowT) : RowT :=
  r.filter (fun p => decide (p.1 ≠ "Lung Cancer"))

/-- Line 188 of the source: `lr_model if model_choice == "Logistic Regression"
else knn_model`. -/
def selected_model {α : Type} (model_choice : String) (lr_model knn_model : α) : α :=
  if model_choice == "Logistic Regression" then lr_model else knn_model

/-- Lines 192-213 of the source: build the input row, encode the
non-skipped columns, delete the outcome column, scale, classify, and map
class 1 to the "Likely" string and any other class to the "Unlikely"
string. -/
def predictPipeline (enc : String → Int) (scale : RowT → List Int)
    (clf : List Int → Nat) (gender : String) (age : Int)
    (feature_inputs : List (String × String)) : String :=
  let row := encodeColumns enc (input_data gender age feature_inputs)
  let x := scale (dropOutcome row)
  if clf x == 1 then "Likely to have lung cancer." else "Unlikely to have lung cancer."

/-! Helper lemmas about the sort and the distinct-value bookkeeping. -/

theorem perm_insertBy {α : Type} (le : α → α → Bool) (x : α) (l : List α) :
    (insertBy le x l).Perm (x :: l) := by
  induction l with
  | nil => exact List.Perm.refl _
  | cons y ys ih =>
    rw [insertBy]
    split
    · exact List.Perm.refl _
    · exact (List.Perm.cons y ih).trans (List.Perm.swap x y ys)

theorem perm_sortBy {α : Type} (le : α → α → Bool) (l : List α) :
    (sortBy le l).Perm l := by
  induction l with
  | nil => exact List.Perm.refl _
  | cons x xs ih =>
    rw [sortBy]
    exact (perm_insertBy le x (sortBy le xs)).trans (List.Perm.cons x ih)

theorem mem_sortBy {α : Type} (le : α → α → Bool) (x : α) (l : List α) :
    x ∈ sortBy le l ↔ x ∈ l :=
  (perm_sortBy le l).mem_iff

theorem nodup_dedupFS (l : List Val) : (dedupFS l).Nodup := by
  induction l with
  | nil => simp [dedupFS]
  | cons v vs ih =>
    rw [dedupFS]
    refine List.nodup_cons.mpr ⟨?_, List.Nodup.filter _ ih⟩
    simp [List.mem_filter]

theorem mem_dedupFS (x : Val) (l : List Val) : x ∈ dedupFS l ↔ x ∈ l := by
  induction l with
  | nil => simp [dedupFS]
  | cons v vs ih =>
    rw [dedupFS]
    by_cases hxv : x = v
    · subst hxv; simp
    · simp [List.mem_cons, List.mem_filter, hxv, ih]

theorem dedupFS_perm_dedup (l : List Val) : (dedupFS l).Perm l.dedup := by
  rw [List.perm_ext_iff_of_nodup (nodup_dedupFS l) (List.nodup_dedup l)]
  intro a
  rw [mem_dedupFS, List.mem_dedup]

theorem sum_counts_eq_length (vs : List Val) :
    ((uniqCounts vs).map (fun p => p.2)).sum = vs.length := by
  have h1 : (uniqCounts vs).map (fun p => p.2) = (dedupFS vs).map (fun v => vs.count v) := by
    simp [uniqCounts, List.map_map, Function.comp]
  rw [h1]
  exact ((dedupFS_perm_dedup vs).map _).sum_eq.trans (List.sum_map_count_dedup_eq_length vs)

theorem genderOk_iff (sel : Selection) (r : RowT) :
    genderOk sel r = true ↔ ∃ g, getCell r "Gender" = Val.str g ∧ g ∈ sel.genders := by
  unfold genderOk
  split
  next g heq => simp [heq]
  next h => -- the wildcard arm: the Gender cell is not a string
    constructor
    · intro hfalse; cases hfalse
    · rintro ⟨g, hg, _⟩
      exact absurd hg (h g)

theorem ageOk_iff (sel : Selection) (r : RowT) :
    ageOk sel r = true ↔ ∃ a, getCell r "Age" = Val.num a ∧ sel.lo ≤ a ∧ a ≤ sel.hi := by
  unfold ageOk
  split
  next a heq => simp [heq]
  next h =>
    constructor
    · intro hfalse; cases hfalse
    · rintro ⟨a, ha, _⟩
      exact absurd ha (h a)

theorem contains_columns_eq_false {s : String} (h1 : s ≠ "Gender") (h2 : s ≠ "Age") :
    columns.contains s = false := by
  have b1 : (s == "Gender") = false := beq_eq_false_iff_ne.mpr h1
  have b2 : (s == "Age") = false := beq_eq_false_iff_ne.mpr h2
  simp [columns, List.contains_cons, b1, b2]
  exact ⟨h1, h2⟩

/-! Claim theorems. -/

/-- Claim C1, as stated, is false: the Gender field of the prediction
input is not produced by the persisted categorical encoder.  With the
concrete encoder that sends every label to 42, the encoded row's Gender
entry is the inline code 1, not 42: the universal statement that every
non-numeric field (gender included) is encoded by the persisted encoder
is refuted at this input. -/
theorem c1_counterexample :
    ¬ ∀ (enc : String → Int) (gender : String) (age : Int)
        (feats : List (String × String)),
        getCell (encodeColumns enc (input_data gender age feats)) "Gender" =
          Val.num (enc gender) := by
  intro h
  exact absurd (h (fun _ => 42) "Male" 45 []) (by decide)

/-- Claim C1 amended: in the prediction input, the persisted encoder is
applied to every field other than Gender and Age (so to each Yes/No
feature answer and to the fixed outcome entry), while Gender is encoded
inline as Male to 1 and anything else to 0, and Age is left as the raw
number. -/
theorem c1_amended (enc : String → Int) (gender : String) (age : Int)
    (feats : List (String × String))
    (hf : ∀ p ∈ feats, p.1 ≠ "Gender" ∧ p.1 ≠ "Age") :
    encodeColumns enc (input_data gender age feats) =
      ("Gender", Val.num (if gender == "Male" then 1 else 0)) ::
      ("Age", Val.num age) ::
      (feats.map (fun p => (p.1, Val.num (enc p.2))) ++
        [("Lung Cancer", Val.num (enc "No"))]) := by
  have hmap : feats.map ((fun p : String × Val =>
        if columns.contains p.1 then p else (p.1, encTransform enc p.2)) ∘
        (fun p : String × String => (p.1, Val.str p.2))) =
      feats.map (fun p => (p.1, Val.num (enc p.2))) := by
    apply List.map_congr_left
    intro p hp
    have h := hf p hp
    have hc : columns.contains p.1 = false := contains_columns_eq_false h.1 h.2
    have hm : p.1 ∉ columns := by
      simp [columns]
      exact ⟨h.1, h.2⟩
    simp [Function.comp, hc, hm, encTransform]
  simp only [encodeColumns, input_data, List.map_cons, List.map_append,
    List.map_map, hmap]
  rfl

/-- Concrete instance of the amended claim C1. -/
theorem c1_amended_witness :
    encodeColumns (fun _ => 7) (input_data "Male" 45 [("Smoking", "Yes")]) =
      [("Gender", Val.num 1), ("Age", Val.num 45), ("Smoking", Val.num 7),
       ("Lung Cancer", Val.num 7)] := by
  have h := c1_amended (fun _ => 7) "Male" 45 [("Smoking", "Yes")] (by decide)
  simpa using h

/-- Claim C3, as stated, is false: on a filtered view holding one row
whose Lung Cancer cell is the missing marker, the counts sum to 0 while
the view has 1 row — value_counts drops missing values, so such a row is
dropped from the counts. -/
theorem c3_counterexample :
    ((countBy (filteredView
        [[("Age", Val.num 40), ("Gender", Val.str "Male"), ("Lung Cancer", Val.missing)]]
        ⟨["Male"], 1, 120, [], []⟩) "Lung Cancer").map (fun p => p.2)).sum = 0 ∧
    (filteredView
        [[("Age", Val.num 40), ("Gender", Val.str "Male"), ("Lung Cancer", Val.missing)]]
        ⟨["Male"], 1, 120, [], []⟩).length = 1 ∧ (0 : Nat) ≠ 1 := by
  decide

/-- Claim C3 amended: for every view and column, the counts produced by
countBy sum exactly to the number of rows whose value in that column is
not the missing marker (rows carrying the missing marker are excluded),
and no value is counted twice (the labels of the count table are
distinct). -/
theorem c3_amended (view : List RowT) (c : String) :
    ((countBy view c).map (fun p => p.2)).sum = (dropNA (colValues view c)).length ∧
    ((countBy view c).map (fun p => p.1)).Nodup := by
  constructor
  · exact (((perm_sortBy cntLe _).map _).sum_eq).trans (sum_counts_eq_length _)
  · have hperm := (perm_sortBy cntLe (uniqCounts (dropNA (colValues view c)))).map
      (fun p : Val × Nat => p.1)
    refine hperm.nodup_iff.mpr ?_
    have h1 : (uniqCounts (dropNA (colValues view c))).map (fun p : Val × Nat => p.1) =
        dedupFS (dropNA (colValues view c)) := by
      rw [uniqCounts, List.map_map]
      exact List.map_id _
    rw [h1]
    exact nodup_dedupFS _

/-- Claim C4: a row is retained by the filter exactly when its Gender
cell is a label in the selected gender set and its Age cell is a number
within the inclusive bounds; an empty gender selection retains nothing. -/
theorem c4_filter_membership (df : List RowT) (sel : Selection) (r : RowT) :
    (r ∈ sortBy ageLe (filterRows df sel) ↔
      r ∈ df ∧ (∃ g, getCell r "Gender" = Val.str g ∧ g ∈ sel.genders) ∧
        (∃ a, getCell r "Age" = Val.num a ∧ sel.lo ≤ a ∧ a ≤ sel.hi)) ∧
    (sel.genders = [] → filterRows df sel = [] ∧ filteredView df sel = []) := by
  constructor
  · rw [mem_sortBy]
    unfold filterRows
    rw [List.mem_filter]
    unfold keepRow
    rw [Bool.and_eq_true, genderOk_iff, ageOk_iff]
  · intro hg
    have h1 : filterRows df sel = [] := by
      apply List.filter_eq_nil_iff.mpr
      intro a _
      unfold keepRow genderOk
      rw [hg]
      split <;> simp
    exact ⟨h1, by simp [filteredView, h1, sortBy]⟩

/-- Concrete instance of claim C4: with both genders selected and the age
range set exactly to the two row ages, both boundary rows are retained,
and an empty gender selection retains no row. -/
theorem c4_witness :
    (([("Age", Val.num 34), ("Gender", Val.str "Male"), ("Lung Cancer", Val.str "Yes")] : RowT)
      ∈ sortBy ageLe (filterRows
        [[("Age", Val.num 34), ("Gender", Val.str "Male"), ("Lung Cancer", Val.str "Yes")],
         [("Age", Val.num 60), ("Gender", Val.str "Female"), ("Lung Cancer", Val.str "No")]]
        ⟨["Male", "Female"], 34, 60, [], []⟩)) ∧
    (filterRows
        [[("Age", Val.num 34), ("Gender", Val.str "Male"), ("Lung Cancer", Val.str "Yes")],
         [("Age", Val.num 60), ("Gender", Val.str "Female"), ("Lung Cancer", Val.str "No")]]
        ⟨[], 1, 120, [], []⟩ = [] ∧
     filteredView
        [[("Age", Val.num 34), ("Gender", Val.str "Male"), ("Lung Cancer", Val.str "Yes")],
         [("Age", Val.num 60), ("Gender", Val.str "Female"), ("Lung Cancer", Val.str "No")]]
        ⟨[], 1, 120, [], []⟩ = []) :=
  ⟨(c4_filter_membership _ _ _).1.mpr
    ⟨List.mem_cons_self _ _, ⟨"Male", rfl, by decide⟩, ⟨34, rfl, by decide⟩⟩,
   (c4_filter_membership
      [[("Age", Val.num 34), ("Gender", Val.str "Male"), ("Lung Cancer", Val.str "Yes")],
       [("Age", Val.num 60), ("Gender", Val.str "Female"), ("Lung Cancer", Val.str "No")]]
      ⟨[], 1, 120, [], []⟩
      [("Age", Val.num 34), ("Gender", Val.str "Male"), ("Lung Cancer", Val.str "Yes")]).2 rfl⟩

/-- Claim C6: the six-entry mapping table sends 1 to No, 2 to Yes, YES to
Yes, NO to No, M to Male and F to Female; during normalization it is
applied to the cell of every column other than Age, and Age cells pass
through unchanged.  (Totality and determinism hold because binary_mapping
is a total function.) -/
theorem c6_normalization :
    (binary_mapping (Val.num 1) = Val.str "No" ∧
     binary_mapping (Val.num 2) = Val.str "Yes" ∧
     binary_mapping (Val.str "YES") = Val.str "Yes" ∧
     binary_mapping (Val.str "NO") = Val.str "No" ∧
     binary_mapping (Val.str "M") = Val.str "Male" ∧
     binary_mapping (Val.str "F") = Val.str "Female") ∧
    (∀ (r : RowT) (c : String) (v : Val), (c, v) ∈ r → c ≠ "Age" →
      (c, binary_mapping v) ∈ normalizeRow r) ∧
    (∀ (r : RowT) (v : Val), ("Age", v) ∈ r → ("Age", v) ∈ normalizeRow r) := by
  refine ⟨by decide, ?_, ?_⟩
  · intro r c v hmem hc
    unfold normalizeRow
    have h : (c, binary_mapping v) =
        (fun p : String × Val => if p.1 == "Age" then p else (p.1, binary_mapping p.2)) (c, v) := by
      simp [hc]
    rw [h]
    exact List.mem_map_of_mem _ hmem
  · intro r v hmem
    unfold normalizeRow
    have h : (("Age", v) : String × Val) =
        (fun p : String × Val => if p.1 == "Age" then p else (p.1, binary_mapping p.2)) ("Age", v) := by
      simp
    rw [h]
    exact List.mem_map_of_mem _ hmem

/-- Concrete instance of claim C6 on a row with a raw gender code and an
age. -/
theorem c6_witness :
    ("Gender", binary_mapping (Val.str "M")) ∈
      normalizeRow [("Gender", Val.str "M"), ("Age", Val.num 30)] ∧
    ("Age", Val.num 30) ∈ normalizeRow [("Gender", Val.str "M"), ("Age", Val.num 30)] :=
  ⟨c6_normalization.2.1 [("Gender", Val.str "M"), ("Age", Val.num 30)] "Gender"
      (Val.str "M") (by decide) (by decide),
   c6_normalization.2.2 [("Gender", Val.str "M"), ("Age", Val.num 30)]
      (Val.num 30) (by decide)⟩

/-- Claim C7: the prediction pipeline is a total function that always
returns one of the two fixed label strings, sending classifier output
class 1 to the "Likely" string and class 0 to the "Unlikely" string. -/
theorem c7_predict_labels (enc : String → Int) (scale : RowT → List Int)
    (clf : List Int → Nat) (g : String) (a : Int) (feats : List (String × String)) :
    (predictPipeline enc scale clf g a feats = "Likely to have lung cancer." ∨
     predictPipeline enc scale clf g a feats = "Unlikely to have lung cancer.") ∧
    (clf (scale (dropOutcome (encodeColumns enc (input_data g a feats)))) = 1 →
     predictPipeline enc scale clf g a feats = "Likely to have lung cancer.") ∧
    (clf (scale (dropOutcome (encodeColumns enc (input_data g a feats)))) = 0 →
     predictPipeline enc scale clf g a feats = "Unlikely to have lung cancer.") := by
  by_cases h : clf (scale (dropOutcome (encodeColumns enc (input_data g a feats)))) = 1
  · simp [predictPipeline, h]
  · simp [predictPipeline, h]

/-- Concrete instance of claim C7 with classifiers pinned to each class. -/
theorem c7_witness :
    predictPipeline (fun _ => 0) (fun _ => []) (fun _ => 1) "Male" 45
      [("Smoking", "Yes")] = "Likely to have lung cancer." ∧
    predictPipeline (fun _ => 0) (fun _ => []) (fun _ => 0) "Male" 45
      [("Smoking", "Yes")] = "Unlikely to have lung cancer." :=
  ⟨(c7_predict_labels (fun _ => 0) (fun _ => []) (fun _ => 1) "Male" 45
      [("Smoking", "Yes")]).2.1 rfl,
   (c7_predict_labels (fun _ => 0) (fun _ => []) (fun _ => 0) "Male" 45
      [("Smoking", "Yes")]).2.2 rfl⟩

/-- Claim C8: any raw cell value outside the six-entry mapping table is
sent to the missing marker; the mapping never fails. -/
theorem c8_unmapped_missing (v : Val) :
    v ∉ ([Val.num 1, Val.num 2, Val.str "YES", Val.str "NO",
          Val.str "M", Val.str "F"] : List Val) →
    binary_mapping v = Val.missing := by
  intro h
  simp only [List.mem_cons, List.not_mem_nil, or_false, not_or] at h
  obtain ⟨h1, h2, h3, h4, h5, h6⟩ := h
  unfold binary_mapping
  rw [if_neg h1, if_neg h2, if_neg h3, if_neg h4, if_neg h5, if_neg h6]

/-- Concrete instance of claim C8 on an unrecognized code. -/
theorem c8_witness :
    (Val.str "MAYBE") ∉ ([Val.num 1, Val.num 2, Val.str "YES", Val.str "NO",
        Val.str "M", Val.str "F"] : List Val) ∧
    binary_mapping (Val.str "MAYBE") = Val.missing :=
  ⟨by decide, c8_unmapped_missing (Val.str "MAYBE") (by decide)⟩

/-- Claim C9: running the filter, sort and projection steps leaves the
source dataset component of the state unchanged, and deposits exactly the
filtered view in the derived component; each step reassigns only the
derived frame. -/
theorem c9_source_unchanged (e : Env) (sel : Selection) :
    (step_project sel (step_sort (step_filter sel e))).lung_df = e.lung_df ∧
    (step_project sel (step_sort (step_filter sel e))).lung_df_filtered =
      filteredView e.lung_df sel :=
  ⟨rfl, rfl⟩

/-- Claim C10: for any model-choice string other than exactly "Logistic
Regression", the selection picks the K-Nearest-Neighbors model; the
selection is a total function and never rejects a choice. -/
theorem c10_model_selection {α : Type} (lr knn : α) (choice : String)
    (h : choice ≠ "Logistic Regression") :
    selected_model choice lr knn = knn := by
  simp [selected_model, h]

/-- Concrete instance of claim C10 at the other selectbox option. -/
theorem c10_witness : selected_model "K-Nearest Neighbors" (0 : Nat) 1 = 1 :=
  c10_model_selection 0 1 "K-Nearest Neighbors" (by decide)

end LungApp
